import Mathlib

/-!
Shallow embedding of the seam-detection / stitching / page-fit core of
`src/main.py` (functions `find_best_overlap_height`,
`merge_images_vertically`, `resize_image_to_spec`), together with
theorems settling the specification claims.

Conventions of the embedding:
* A raster image is its width, height and a dense pixel function
  (row, column, channel) ↦ sample value; after the RGB conversion in
  `merge_images_vertically` every image has exactly 3 channels, so the
  channel count is fixed at 3 throughout.
* Real-valued arithmetic of the source (`search_proportion`,
  SAD normalisation, aspect ratios) is modelled exactly over `ℚ`.
* Python `int(x)` truncation on the nonnegative values that occur here is
  `Int.toNat ⌊x⌋` (for negative intermediate values both are cut to the
  same result by the following `max step ·`).
* The GUI warning dialog of the placeholder branch of
  `merge_images_vertically` is modelled as a `Bool` flag in the result.
-/

/-- A raster image: width, height, and row-major pixel samples
`pix row col channel`.  Channel count is fixed at 3 (RGB). -/
structure Img where
  width : ℕ
  height : ℕ
  pix : ℕ → ℕ → ℕ → ℕ

/-- Absolute difference of two samples (`abs(a - b)` of the source,
computed there after a cast to float on uint8 data, hence exact). -/
def adiff (a b : ℕ) : ℕ := max a b - min a b

/-- Sum of absolute differences between the bottom `oh` rows of `a` and the
top `oh` rows of `b`, restricted to the first `cw` columns
(`np.sum(np.abs(strip1 - strip2))` over `strip1 = img1_arr[h1-oh:h1, :cw]`,
`strip2 = img2_arr[0:oh, :cw]`). -/
def sadAt (a b : Img) (cw oh : ℕ) : ℕ :=
  ((List.range oh).map (fun i =>
    ((List.range cw).map (fun c =>
      ((List.range 3).map (fun ch =>
        adiff (a.pix (a.height - oh + i) c ch) (b.pix i c ch))).sum)).sum)).sum

/-- Normalised SAD for candidate overlap height `oh`: `none` models the
`continue` taken by the loop body when the denominator
`oh * common_width * num_channels` is zero (which also covers the
`if oh == 0: continue` guard), otherwise `sad / denominator`. -/
def nsad (a b : Img) (cw oh : ℕ) : Option ℚ :=
  if oh * cw * 3 = 0 then none
  else some ((sadAt a b cw oh : ℚ) / ((oh * cw * 3 : ℕ) : ℚ))

/-- One iteration of the search loop: the accumulator is
`(best_oh, min_norm_sad)`, with `min_norm_sad = none` standing for the
initial `float('inf')`.  The update `if norm_sad < min_norm_sad` is strict,
so ties keep the earlier candidate. -/
def scanStep (a b : Img) (cw : ℕ) (acc : ℕ × Option ℚ) (oh : ℕ) : ℕ × Option ℚ :=
  match nsad a b cw oh with
  | none => acc
  | some q =>
    match acc.2 with
    | none => (oh, some q)
    | some m => if q < m then (oh, some q) else acc

/-- Upper bound of the candidate search
(`search_range_max_h`): `min (max step (int(maxPossible * sp))) maxPossible`. -/
def searchMaxOf (m : ℕ) (sp : ℚ) (step : ℕ) : ℕ :=
  min (max step (Int.toNat ⌊(m : ℚ) * sp⌋)) m

/-- Candidate overlap heights examined by the loop
`for oh in range(step, search_range_max_h + 1, step)`:
the `searchMax / step` values `step, 2*step, …`. -/
def candidatesOf (a b : Img) (sp : ℚ) (step : ℕ) : List ℕ :=
  List.range' step (searchMaxOf (min a.height b.height) sp step / step) step

/-- The whole search loop, returning `(best_oh, min_norm_sad)`. -/
def detectScan (a b : Img) (sp : ℚ) (step : ℕ) : ℕ × Option ℚ :=
  (candidatesOf a b sp step).foldl (scanStep a b (min a.width b.width)) (0, none)

/-- Minimum significant overlap:
`max(step, 5, int(0.01 * max_overlap_physically_possible))`. -/
def min_significant_overlap_px (step m : ℕ) : ℕ :=
  max step (max 5 (Int.toNat ⌊(1 / 100 : ℚ) * (m : ℚ)⌋))

/-- The rejection test `min_norm_sad > sad_threshold`; `none` is the initial
`float('inf')`, which exceeds every threshold. -/
def sadTooHigh (m : Option ℚ) (thr : ℚ) : Bool :=
  match m with
  | none => true
  | some q => decide (thr < q)

/-- Embedding of `find_best_overlap_height(img1, img2, search_proportion,
step, sad_threshold)` from `src/main.py`. -/
def find_best_overlap_height (a b : Img) (sp : ℚ) (step : ℕ) (thr : ℚ) : ℕ :=
  if min a.width b.width = 0 then 0
  else if min a.height b.height < step then 0
  else
    let s := detectScan a b sp step
    if s.1 < min_significant_overlap_px step (min a.height b.height)
        ∨ sadTooHigh s.2 thr = true then 0
    else s.1

/-- All-white constant image (value 255 in every channel). -/
def whiteImg (w h : ℕ) : Img :=
  { width := w, height := h, pix := fun _ _ _ => 255 }

/-- Crop away the top `y` rows of an image
(`img.crop((0, y, w, h))` of the source). -/
def cropTop (img : Img) (y : ℕ) : Img :=
  { width := img.width, height := img.height - y,
    pix := fun r c ch => img.pix (y + r) c ch }

/-- Paste `src` onto `base` with its top-left corner at `(x, y)`
(column `x`, row `y`), keeping the dimensions of `base`
(`base.paste(src, (x, y))` of the source). -/
def pasteAt (base src : Img) (x y : ℕ) : Img :=
  { width := base.width, height := base.height,
    pix := fun r c ch =>
      if y ≤ r ∧ r < y + src.height ∧ x ≤ c ∧ c < x + src.width then
        src.pix (r - y) (c - x) ch
      else base.pix r c ch }

/-- Pad a part narrower than `fw` onto a white canvas of width `fw`,
centred by floor division (`paste_x = (final_width - part.width) // 2`). -/
def padToWidth (part : Img) (fw : ℕ) : Img :=
  if part.width < fw then pasteAt (whiteImg fw part.height) part ((fw - part.width) / 2) 0
  else part

/-- The bottom part used by `merge_images_vertically` for a given detected
overlap: the bottom image cropped by `min(overlap_h, h2)` rows when
`overlap_h > 0`, the whole bottom image otherwise. -/
def bottomPartOf (img2 : Img) (oh : ℕ) : Img :=
  if 0 < oh then cropTop img2 (min oh img2.height) else img2

/-- The combine step of `merge_images_vertically` (lines 156–192): emptiness
checks, width padding, and vertical composition on a white canvas.  The
`Bool` is true exactly on the branch that pops the "Merge Warning" dialog
and returns the 100×100 white placeholder. -/
def combineParts (top bottom : Img) : Bool × Img :=
  if top.height = 0 ∧ bottom.height = 0 then (true, whiteImg 100 100)
  else if top.height = 0 then (false, bottom)
  else if bottom.height = 0 then (false, top)
  else
    let fw := max top.width bottom.width
    let tp := padToWidth top fw
    let bp := padToWidth bottom fw
    (false, pasteAt (pasteAt (whiteImg fw (tp.height + bp.height)) tp 0 0) bp 0 tp.height)

/-- Embedding of the stitching part of `merge_images_vertically`
(lines 138–192), parameterised by the detected overlap height: the top part
is all of `img1`; if a positive overlap consumes the whole bottom image the
top image is returned unmodified, otherwise the parts are combined. -/
def merge_images_vertically_core (img1 img2 : Img) (oh : ℕ) : Bool × Img :=
  let bottom := bottomPartOf img2 oh
  if 0 < oh ∧ bottom.height = 0 then (false, img1)
  else combineParts img1 bottom

/-- Embedding of `merge_images_vertically` after decoding: detect the
overlap with the fixed arguments of the source
(`search_proportion=0.95, step=1, sad_threshold=25`), then stitch. -/
def merge_images_vertically (img1 img2 : Img) : Bool × Img :=
  merge_images_vertically_core img1 img2
    (find_best_overlap_height img1 img2 (19 / 20) 1 25)

/-- PIL resampling filters that matter here.  The source passes
`Image.Resampling.LANCZOS` unconditionally. -/
inductive ResampleFilter where
  | lanczos
  | box
  | bilinear
  | nearest
deriving DecidableEq

/-- The three places `resize_image_to_spec` can raise on degenerate values:
the aspect ratio `original_width / original_height` (line 197, a
`ZeroDivisionError`), the limiting-dimension comparison
`w / target_w > h / target_h` (line 200, a `ZeroDivisionError`), and the
`image.resize` call itself (line 209), where PIL raises
`ValueError("height and width must be > 0")` when a fitted dimension has
truncated to zero. -/
inductive ResizeError where
  | divisionByZeroAspect
  | divisionByZeroCompare
  | resizeZeroDimension
deriving DecidableEq

/-- The successful PIL `image.resize((nw, nh), filter)` call, modelled
abstractly: the output dimensions are exact; the pixel content (whose
resampling kernel lives inside PIL, outside this repository) is stood in
for by nearest sampling.  No claim depends on resampled pixel values.
PIL's refusal of a zero target dimension is modelled by the
`resizeZeroDimension` branch of `resize_image_to_spec`, which guards every
use of this function. -/
def resampleTo (image : Img) (nw nh : ℕ) : Img :=
  { width := nw, height := nh,
    pix := fun r c ch =>
      image.pix (r * image.height / max nh 1) (c * image.width / max nw 1) ch }

/-- Scaled dimensions `(new_width, new_height)` chosen by
`resize_image_to_spec`: the limiting dimension is set to the target and the
other follows from the aspect ratio with `int` truncation.  For extreme
aspect ratios the truncation can yield 0. -/
def fitDims (image : Img) (tw th : ℕ) : ℕ × ℕ :=
  if (image.width : ℚ) / (tw : ℚ) > (image.height : ℚ) / (th : ℚ) then
    (tw, Int.toNat ⌊(tw : ℚ) / ((image.width : ℚ) / (image.height : ℚ))⌋)
  else
    (Int.toNat ⌊(th : ℚ) * ((image.width : ℚ) / (image.height : ℚ))⌋, th)

/-- Embedding of `resize_image_to_spec(image, target_width_px,
target_height_px)`: fail on the divisions by zero a degenerate input would
hit in the source and on the `ValueError` PIL raises inside `resize` when a
fitted dimension has truncated to zero; otherwise resample to the fitted
dimensions with the LANCZOS filter and paste centred on a white
target-sized canvas.  The returned pair carries the filter passed to
`resize` (line 209). -/
def resize_image_to_spec (image : Img) (tw th : ℕ) :
    Except ResizeError (Img × ResampleFilter) :=
  if image.height = 0 then .error .divisionByZeroAspect
  else if tw = 0 ∨ th = 0 then .error .divisionByZeroCompare
  else if (fitDims image tw th).1 = 0 ∨ (fitDims image tw th).2 = 0 then
    .error .resizeZeroDimension
  else
    .ok (pasteAt (whiteImg tw th)
      (resampleTo image (fitDims image tw th).1 (fitDims image tw th).2)
      ((tw - (fitDims image tw th).1) / 2) ((th - (fitDims image tw th).2) / 2),
      ResampleFilter.lanczos)

/-- The resampling filter passed to `resize` at line 209.  The call site is
reached exactly when the divisions at lines 197 and 200 do not raise (the
image height and both target dimensions are nonzero); the filter argument
there is the constant `Image.Resampling.LANCZOS`, handed to `resize` even
when `resize` itself then raises on a zero fitted dimension. -/
def filterChosen (image : Img) (tw th : ℕ) : Option ResampleFilter :=
  if image.height = 0 then none
  else if tw = 0 ∨ th = 0 then none
  else some ResampleFilter.lanczos

/-- Scale factor of the fit, `min(new_width / width, new_height / height)`,
the quantity the spec's filter-selection policy is stated in terms of. -/
def scaleFactorOf (image : Img) (tw th : ℕ) : ℚ :=
  min (((fitDims image tw th).1 : ℚ) / (image.width : ℚ))
    (((fitDims image tw th).2 : ℚ) / (image.height : ℚ))

/-! ## Helper lemmas about the search loop -/

/-- A computed normalised SAD is nonnegative. -/
lemma nsad_nonneg {a b : Img} {cw oh : ℕ} {q : ℚ} (h : nsad a b cw oh = some q) :
    0 ≤ q := by
  unfold nsad at h
  split at h
  · exact absurd h (by simp)
  · have hq : q = (sadAt a b cw oh : ℚ) / ((oh * cw * 3 : ℕ) : ℚ) := by
      injection h with h; exact h.symm
    rw [hq]
    exact div_nonneg (Nat.cast_nonneg _) (Nat.cast_nonneg _)

/-- Once the running minimum is `0`, no later candidate can improve it, so
the accumulator is final (the loop updates only on a strict decrease). -/
lemma foldl_scanStep_zero (a b : Img) (cw : ℕ) :
    ∀ (l : List ℕ) (bo : ℕ),
      List.foldl (scanStep a b cw) (bo, some 0) l = (bo, some 0) := by
  intro l
  induction l with
  | nil => intro bo; rfl
  | cons x xs ih =>
    intro bo
    have hstep : scanStep a b cw (bo, some 0) x = (bo, some 0) := by
      unfold scanStep
      cases hn : nsad a b cw x with
      | none => rfl
      | some q =>
        have : ¬ q < 0 := not_lt.mpr (nsad_nonneg hn)
        simp [this]
    rw [List.foldl_cons, hstep, ih]

/-- With zero common width every candidate is skipped
(the denominator is zero). -/
lemma nsad_cw_zero (a b : Img) (oh : ℕ) : nsad a b 0 oh = none := by
  unfold nsad
  simp

/-- With zero common width the loop never updates its accumulator. -/
lemma foldl_scanStep_cw_zero (a b : Img) :
    ∀ (l : List ℕ) (acc : ℕ × Option ℚ),
      List.foldl (scanStep a b 0) acc l = acc := by
  intro l
  induction l with
  | nil => intro acc; rfl
  | cons x xs ih =>
    intro acc
    have hstep : scanStep a b 0 acc x = acc := by
      unfold scanStep
      rw [nsad_cw_zero]
    rw [List.foldl_cons, hstep, ih]

/-- The scan result on zero common width. -/
lemma detectScan_cw_zero (a b : Img) (sp : ℚ) (step : ℕ)
    (hw : min a.width b.width = 0) : detectScan a b sp step = (0, none) := by
  unfold detectScan
  rw [hw, foldl_scanStep_cw_zero]

/-- When the shorter image is below one step, no candidate exists. -/
lemma candidatesOf_nil_of_short {a b : Img} {sp : ℚ} {step : ℕ}
    (hh : min a.height b.height < step) : candidatesOf a b sp step = [] := by
  unfold candidatesOf
  have hle : searchMaxOf (min a.height b.height) sp step ≤ min a.height b.height :=
    min_le_right _ _
  rw [Nat.div_eq_of_lt (lt_of_le_of_lt hle hh)]
  rfl

/-- The scan result when the shorter image is below one step. -/
lemma detectScan_of_short {a b : Img} {sp : ℚ} {step : ℕ}
    (hh : min a.height b.height < step) : detectScan a b sp step = (0, none) := by
  unfold detectScan
  rw [candidatesOf_nil_of_short hh]
  rfl

/-- The minimum significant overlap is at least 5. -/
lemma min_significant_pos (step m : ℕ) : 0 < min_significant_overlap_px step m := by
  unfold min_significant_overlap_px
  have : (5 : ℕ) ≤ max step (max 5 (Int.toNat ⌊(1 / 100 : ℚ) * (m : ℚ)⌋)) :=
    le_max_of_le_right (le_max_left _ _)
  omega

/-- The acceptance gate of `find_best_overlap_height`, valid for every pair
of images: the result is `0` exactly when the best candidate is below the
minimum significant overlap or the minimal normalised SAD exceeds the
threshold (an empty scan counting as exceeding), and the best candidate
otherwise. -/
lemma detect_gate_eq (a b : Img) (sp : ℚ) (step : ℕ) (thr : ℚ) :
    find_best_overlap_height a b sp step thr =
      if (detectScan a b sp step).1 <
            min_significant_overlap_px step (min a.height b.height)
          ∨ sadTooHigh (detectScan a b sp step).2 thr = true
      then 0 else (detectScan a b sp step).1 := by
  unfold find_best_overlap_height
  by_cases hw : min a.width b.width = 0
  · rw [if_pos hw, detectScan_cw_zero a b sp step hw]
    rw [if_pos (Or.inl (min_significant_pos step _))]
  · rw [if_neg hw]
    by_cases hh : min a.height b.height < step
    · rw [if_pos hh, detectScan_of_short hh]
      have hcond : (((0 : ℕ), (none : Option ℚ)) : ℕ × Option ℚ).1 <
            min_significant_overlap_px step (min a.height b.height)
          ∨ sadTooHigh (((0 : ℕ), (none : Option ℚ)) : ℕ × Option ℚ).2 thr = true :=
        Or.inr rfl
      rw [if_pos hcond]
    · rw [if_neg hh]

/-- Pointwise equal strips give a zero SAD. -/
lemma sadAt_eq_zero {a b : Img} {cw oh : ℕ}
    (h : ∀ i c ch, i < oh → c < cw → ch < 3 →
      a.pix (a.height - oh + i) c ch = b.pix i c ch) :
    sadAt a b cw oh = 0 := by
  unfold sadAt
  apply List.sum_eq_zero
  intro x hx
  obtain ⟨i, hi, rfl⟩ := List.mem_map.mp hx
  apply List.sum_eq_zero
  intro y hy
  obtain ⟨c, hc, rfl⟩ := List.mem_map.mp hy
  apply List.sum_eq_zero
  intro z hz
  obtain ⟨ch, hch, rfl⟩ := List.mem_map.mp hz
  rw [h i c ch (List.mem_range.mp hi) (List.mem_range.mp hc) (List.mem_range.mp hch)]
  unfold adiff
  omega

/-- Pointwise equal strips give normalised SAD `0` (when computed at all). -/
lemma nsad_eq_zero {a b : Img} {cw oh : ℕ} (hcw : cw ≠ 0) (hoh : oh ≠ 0)
    (h : ∀ i c ch, i < oh → c < cw → ch < 3 →
      a.pix (a.height - oh + i) c ch = b.pix i c ch) :
    nsad a b cw oh = some 0 := by
  unfold nsad
  rw [if_neg (by positivity)]
  rw [sadAt_eq_zero h]
  norm_num

/-- A skipped candidate leaves the accumulator unchanged. -/
lemma scanStep_none {a b : Img} {cw oh : ℕ} (acc : ℕ × Option ℚ)
    (h : nsad a b cw oh = none) : scanStep a b cw acc oh = acc := by
  simp [scanStep, h]

/-- The first computed candidate replaces the initial infinity. -/
lemma scanStep_init {a b : Img} {cw oh : ℕ} {q : ℚ} (bo : ℕ)
    (h : nsad a b cw oh = some q) :
    scanStep a b cw (bo, none) oh = (oh, some q) := by
  simp [scanStep, h]

/-- A strictly better candidate replaces the running minimum. -/
lemma scanStep_lt {a b : Img} {cw oh : ℕ} {q m : ℚ} (bo : ℕ)
    (h : nsad a b cw oh = some q) (hlt : q < m) :
    scanStep a b cw (bo, some m) oh = (oh, some q) := by
  simp [scanStep, h, hlt]

/-- A candidate no better than the running minimum is discarded. -/
lemma scanStep_ge {a b : Img} {cw oh : ℕ} {q m : ℚ} (bo : ℕ)
    (h : nsad a b cw oh = some q) (hge : ¬ q < m) :
    scanStep a b cw (bo, some m) oh = (bo, some m) := by
  simp [scanStep, h, hge]

/-- The running minimum never increases. -/
lemma foldl_scanStep_mono (a b : Img) (cw : ℕ) :
    ∀ (l : List ℕ) (bo : ℕ) (m : ℚ),
      ∃ m', (List.foldl (scanStep a b cw) (bo, some m) l).2 = some m' ∧ m' ≤ m := by
  intro l
  induction l with
  | nil => intro bo m; exact ⟨m, rfl, le_refl m⟩
  | cons x xs ih =>
    intro bo m
    rw [List.foldl_cons]
    cases hn : nsad a b cw x with
    | none => rw [scanStep_none _ hn]; exact ih bo m
    | some q =>
      by_cases hlt : q < m
      · rw [scanStep_lt bo hn hlt]
        obtain ⟨m', hm', hle⟩ := ih x q
        exact ⟨m', hm', le_trans hle (le_of_lt hlt)⟩
      · rw [scanStep_ge bo hn hlt]
        exact ih bo m

/-- The final minimum is bounded by the normalised SAD of every candidate
that the loop actually evaluated. -/
lemma foldl_scanStep_le (a b : Img) (cw : ℕ) :
    ∀ (l : List ℕ) (acc : ℕ × Option ℚ) (k : ℕ) (q' : ℚ),
      k ∈ l → nsad a b cw k = some q' →
      ∃ q, (List.foldl (scanStep a b cw) acc l).2 = some q ∧ q ≤ q' := by
  intro l
  induction l with
  | nil => intro acc k q' hk; exact absurd hk (List.not_mem_nil k)
  | cons x xs ih =>
    intro acc k q' hk hkq
    obtain ⟨bo, mo⟩ := acc
    rcases List.mem_cons.mp hk with hx | hxs
    · subst hx
      rw [List.foldl_cons]
      cases mo with
      | none =>
        rw [scanStep_init bo hkq]
        exact foldl_scanStep_mono a b cw xs k q'
      | some m =>
        by_cases hlt : q' < m
        · rw [scanStep_lt bo hkq hlt]
          exact foldl_scanStep_mono a b cw xs k q'
        · rw [scanStep_ge bo hkq hlt]
          obtain ⟨m', hm', hle⟩ := foldl_scanStep_mono a b cw xs bo m
          exact ⟨m', hm', le_trans hle (not_lt.mp hlt)⟩
    · rw [List.foldl_cons]
      exact ih (scanStep a b cw (bo, mo) x) k q' hxs hkq

/-- Whatever minimum the loop reports is the normalised SAD of the reported
best candidate (invariant of the accumulator). -/
lemma foldl_scanStep_achieves (a b : Img) (cw : ℕ) :
    ∀ (l : List ℕ) (acc : ℕ × Option ℚ),
      (∀ q, acc.2 = some q → nsad a b cw acc.1 = some q) →
      ∀ q, (List.foldl (scanStep a b cw) acc l).2 = some q →
        nsad a b cw (List.foldl (scanStep a b cw) acc l).1 = some q := by
  intro l
  induction l with
  | nil => intro acc hinv q hq; exact hinv q hq
  | cons x xs ih =>
    intro acc hinv
    obtain ⟨bo, mo⟩ := acc
    rw [List.foldl_cons]
    apply ih
    cases hn : nsad a b cw x with
    | none => rw [scanStep_none _ hn]; exact hinv
    | some qx =>
      cases mo with
      | none =>
        rw [scanStep_init bo hn]
        intro q hq
        have hqq : qx = q := by injection hq
        subst hqq
        exact hn
      | some m =>
        by_cases hlt : qx < m
        · rw [scanStep_lt bo hn hlt]
          intro q hq
          have hqq : qx = q := by injection hq
          subst hqq
          exact hn
        · rw [scanStep_ge bo hn hlt]
          exact hinv

/-- Membership in the loop's candidate list: exactly the positive multiples
of `step` up to `search_range_max_h`. -/
lemma mem_candidatesOf {a b : Img} {sp : ℚ} {step oh : ℕ} (hs : 1 ≤ step) :
    oh ∈ candidatesOf a b sp step ↔
      step ∣ oh ∧ step ≤ oh ∧
        oh ≤ searchMaxOf (min a.height b.height) sp step := by
  unfold candidatesOf
  rw [List.mem_range']
  constructor
  · rintro ⟨i, hi, rfl⟩
    refine ⟨⟨1 + i, by ring⟩, Nat.le_add_right _ _, ?_⟩
    calc step + step * i = step * (i + 1) := by ring
    _ ≤ step * (searchMaxOf (min a.height b.height) sp step / step) :=
        Nat.mul_le_mul_left _ hi
    _ ≤ searchMaxOf (min a.height b.height) sp step := by
        rw [Nat.mul_comm]; exact Nat.div_mul_le_self _ _
  · rintro ⟨⟨j, rfl⟩, hge, hle⟩
    have hj1 : 1 ≤ j := by
      by_contra hj
      push_neg at hj
      interval_cases j
      omega
    refine ⟨j - 1, ?_, ?_⟩
    · have hjle : j ≤ searchMaxOf (min a.height b.height) sp step / step := by
        have := Nat.div_le_div_right (c := step) hle
        rwa [Nat.mul_div_cancel_left j (by omega : 0 < step)] at this
      omega
    · have : 1 + (j - 1) = j := by omega
      calc step * j = step * (1 + (j - 1)) := by rw [this]
      _ = step + step * (j - 1) := by ring

/-- If the first candidate already attains normalised SAD `0`, the loop
keeps it: the update condition is a strict decrease and no SAD is
negative. -/
lemma detectScan_head_zero {a b : Img} {sp : ℚ} {step x : ℕ} {rest : List ℕ}
    (hc : candidatesOf a b sp step = x :: rest)
    (h0 : nsad a b (min a.width b.width) x = some 0) :
    detectScan a b sp step = (x, some 0) := by
  unfold detectScan
  rw [hc, List.foldl_cons, scanStep_init 0 h0, foldl_scanStep_zero]

/-- Splitting property of the detector: when some candidate overlap height
`k` has pointwise equal strips (for instance because the two images were cut
from one source at row `k`), the minimal normalised SAD is exactly `0`, and
the returned height is `0` (rejection) or a height of normalised SAD `0`. -/
lemma detect_split_quality {a b : Img} {sp thr : ℚ} {step k : ℕ}
    (hs : 1 ≤ step) (hw : 0 < min a.width b.width)
    (hk : k ∈ candidatesOf a b sp step)
    (hsplit : ∀ i c ch, i < k → c < min a.width b.width → ch < 3 →
      a.pix (a.height - k + i) c ch = b.pix i c ch) :
    (detectScan a b sp step).2 = some 0 ∧
      (find_best_overlap_height a b sp step thr = 0 ∨
        nsad a b (min a.width b.width)
          (find_best_overlap_height a b sp step thr) = some 0) := by
  have hk' := (mem_candidatesOf hs).mp hk
  have hk0 : k ≠ 0 := by omega
  have hn : nsad a b (min a.width b.width) k = some 0 :=
    nsad_eq_zero (by omega) hk0 hsplit
  obtain ⟨q, hq, hqle⟩ :=
    foldl_scanStep_le a b (min a.width b.width) (candidatesOf a b sp step)
      (0, none) k 0 hk hn
  have hinv : ∀ q', (((0 : ℕ), (none : Option ℚ)) : ℕ × Option ℚ).2 = some q' →
      nsad a b (min a.width b.width) (((0 : ℕ), (none : Option ℚ)) : ℕ × Option ℚ).1 = some q' := by
    intro q' hq'
    exact absurd hq' (by simp)
  have hach := foldl_scanStep_achieves a b (min a.width b.width)
    (candidatesOf a b sp step) (0, none) hinv
  have hscan2 : (detectScan a b sp step).2 = some q := hq
  have hq0 : q = 0 := by
    have hnn : 0 ≤ q := nsad_nonneg (hach q hq)
    linarith
  subst hq0
  refine ⟨hscan2, ?_⟩
  rw [detect_gate_eq]
  by_cases hcond : (detectScan a b sp step).1 <
        min_significant_overlap_px step (min a.height b.height)
      ∨ sadTooHigh (detectScan a b sp step).2 thr = true
  · rw [if_pos hcond]
    exact Or.inl rfl
  · rw [if_neg hcond]
    exact Or.inr (hach 0 hq)

/-! ## Concrete images for the scenario claims -/

/-- Top image of the §8 scenario: 100 wide, 200 tall, white, with a black
50×50 square on rows 150–199, columns 0–49. -/
def imgA : Img :=
  { width := 100, height := 200,
    pix := fun r c _ => if 150 ≤ r ∧ c < 50 then 0 else 255 }

/-- Bottom image of the §8 scenario: 100 wide, 200 tall, white, with the
same black 50×50 square on rows 0–49, columns 0–49. -/
def imgB : Img :=
  { width := 100, height := 200,
    pix := fun r c _ => if r < 50 ∧ c < 50 then 0 else 255 }

/-- All-white 1×20 image (width 1, height 20). -/
def w20 : Img := whiteImg 1 20

/-- All-white 1×550 image (width 1, height 550). -/
def w550 : Img := whiteImg 1 550

/-- All-white 1×7 image (width 1, height 7). -/
def w7 : Img := whiteImg 1 7

/-- On the §8 scenario the first candidate height 1 already matches
exactly (the last row of `imgA` equals the first row of `imgB`). -/
lemma nsad_AB_one : nsad imgA imgB (min imgA.width imgB.width) 1 = some 0 := by
  unfold nsad
  rw [if_neg (by decide)]
  rw [show sadAt imgA imgB (min imgA.width imgB.width) 1 = 0 by decide]
  simp

/-- Candidate list of the §8 scenario: `int(200 * 0.95) = 190` heights. -/
lemma candidatesOf_AB :
    candidatesOf imgA imgB (19 / 20) 1 = 1 :: List.range' 2 189 1 := by
  have hsm : searchMaxOf (min imgA.height imgB.height) (19 / 20) 1 = 190 := by
    show min (max 1 (Int.toNat ⌊((min (200 : ℕ) 200 : ℕ) : ℚ) * (19 / 20)⌋))
      (min (200 : ℕ) 200) = 190
    norm_num
    try rfl
  unfold candidatesOf
  rw [hsm, Nat.div_one]
  show List.range' 1 (189 + 1) 1 = 1 :: List.range' 2 189 1
  rw [List.range'_succ]

/-- The scan of the §8 scenario stops improving at height 1, SAD 0. -/
lemma detectScan_AB : detectScan imgA imgB (19 / 20) 1 = (1, some 0) :=
  detectScan_head_zero candidatesOf_AB nsad_AB_one

/-- The minimum significant overlap of the §8 scenario is 5 pixels. -/
lemma minsig_AB : min_significant_overlap_px 1 (min imgA.height imgB.height) = 5 := by
  show max 1 (max 5 (Int.toNat ⌊(1 / 100 : ℚ) * ((min (200 : ℕ) 200 : ℕ) : ℚ)⌋)) = 5
  norm_num
  try rfl

/-- On the §8 scenario the detector returns 0: the best candidate is the
first exact match at height 1, which is below `min_significant = 5`. -/
lemma detect_AB : find_best_overlap_height imgA imgB (19 / 20) 1 25 = 0 := by
  rw [detect_gate_eq, detectScan_AB, minsig_AB]
  exact if_pos (Or.inl (by decide))

/-- On two all-white 1×550 images with `step = 5` the scan keeps the first
candidate, height 5, with SAD 0. -/
lemma detectScan_w550 : detectScan w550 w550 (19 / 20) 5 = (5, some 0) := by
  have h0 : nsad w550 w550 (min w550.width w550.width) 5 = some 0 := by
    unfold nsad
    rw [if_neg (by decide)]
    rw [show sadAt w550 w550 (min w550.width w550.width) 5 = 0 by decide]
    simp
  have hsm : searchMaxOf (min w550.height w550.height) (19 / 20) 5 = 522 := by
    show min (max 5 (Int.toNat ⌊((min (550 : ℕ) 550 : ℕ) : ℚ) * (19 / 20)⌋))
      (min (550 : ℕ) 550) = 522
    norm_num
    try rfl
  have hc : candidatesOf w550 w550 (19 / 20) 5 = 5 :: List.range' 10 103 5 := by
    unfold candidatesOf
    rw [hsm, show (522 : ℕ) / 5 = 104 by norm_num]
    show List.range' 5 (103 + 1) 5 = 5 :: List.range' 10 103 5
    rw [List.range'_succ]
  exact detectScan_head_zero hc h0

/-- On two all-white 1×550 images with `step = 5` the detector accepts
height 5: `min_significant = max(5, 5, int(5.5)) = 5`. -/
lemma detect_w550 : find_best_overlap_height w550 w550 (19 / 20) 5 25 = 5 := by
  have hms : min_significant_overlap_px 5 (min w550.height w550.height) = 5 := by
    show max 5 (max 5 (Int.toNat ⌊(1 / 100 : ℚ) * ((min (550 : ℕ) 550 : ℕ) : ℚ)⌋)) = 5
    norm_num
    try rfl
  rw [detect_gate_eq, detectScan_w550, hms]
  have hnot : ¬ (((((5 : ℕ), some (0 : ℚ))) : ℕ × Option ℚ).1 < 5 ∨
      sadTooHigh ((((5 : ℕ), some (0 : ℚ))) : ℕ × Option ℚ).2 25 = true) := by
    rintro (h | h)
    · exact absurd h (by decide)
    · have hd : decide ((25 : ℚ) < 0) = true := h
      norm_num at hd
  rw [if_neg hnot]

/-- Candidate list of two all-white 1×20 images: heights 1 to 19. -/
lemma candidatesOf_w20 : candidatesOf w20 w20 (19 / 20) 1 = 1 :: List.range' 2 18 1 := by
  have hsm : searchMaxOf (min w20.height w20.height) (19 / 20) 1 = 19 := by
    show min (max 1 (Int.toNat ⌊((min (20 : ℕ) 20 : ℕ) : ℚ) * (19 / 20)⌋))
      (min (20 : ℕ) 20) = 19
    norm_num
    try rfl
  unfold candidatesOf
  rw [hsm, Nat.div_one]
  show List.range' 1 (18 + 1) 1 = 1 :: List.range' 2 18 1
  rw [List.range'_succ]

/-- On two all-white 1×20 images the scan keeps the first candidate,
height 1, with SAD 0. -/
lemma detectScan_w20 : detectScan w20 w20 (19 / 20) 1 = (1, some 0) := by
  have h0 : nsad w20 w20 (min w20.width w20.width) 1 = some 0 := by
    unfold nsad
    rw [if_neg (by decide)]
    rw [show sadAt w20 w20 (min w20.width w20.width) 1 = 0 by decide]
    simp
  exact detectScan_head_zero candidatesOf_w20 h0

/-- The minimum significant overlap of two 1×20 images is 5 pixels. -/
lemma minsig_w20 : min_significant_overlap_px 1 (min w20.height w20.height) = 5 := by
  show max 1 (max 5 (Int.toNat ⌊(1 / 100 : ℚ) * ((min (20 : ℕ) 20 : ℕ) : ℚ)⌋)) = 5
  norm_num
  try rfl

/-- On two all-white 1×20 images the detector returns 0: the best candidate
is height 1, below `min_significant = 5`. -/
lemma detect_w20 : find_best_overlap_height w20 w20 (19 / 20) 1 25 = 0 := by
  rw [detect_gate_eq, detectScan_w20, minsig_w20]
  exact if_pos (Or.inl (by decide))

/-! ## Helper lemmas about stitching and fitting -/

/-- Width padding never changes the height of a part. -/
lemma padToWidth_height (part : Img) (fw : ℕ) :
    (padToWidth part fw).height = part.height := by
  unfold padToWidth
  split
  · rfl
  · rfl

/-- Combining two nonempty parts: no warning, height is the sum of the part
heights, width is the larger part width. -/
lemma combineParts_pos (top bottom : Img) (h1 : top.height ≠ 0)
    (h2 : bottom.height ≠ 0) :
    (combineParts top bottom).1 = false ∧
    (combineParts top bottom).2.height = top.height + bottom.height ∧
    (combineParts top bottom).2.width = max top.width bottom.width := by
  unfold combineParts
  rw [if_neg (fun hc => h1 hc.1), if_neg h1, if_neg h2]
  refine ⟨rfl, ?_, rfl⟩
  show (padToWidth top (max top.width bottom.width)).height +
      (padToWidth bottom (max top.width bottom.width)).height =
    top.height + bottom.height
  rw [padToWidth_height, padToWidth_height]

/-- Stitching with zero overlap keeps the bottom image whole and combines. -/
lemma merge_core_zero (a b : Img) :
    merge_images_vertically_core a b 0 = combineParts a b := by
  have hb : bottomPartOf b 0 = b := by
    unfold bottomPartOf
    rw [if_neg (lt_irrefl 0)]
  show (if 0 < 0 ∧ (bottomPartOf b 0).height = 0 then (false, a)
      else combineParts a (bottomPartOf b 0)) = combineParts a b
  rw [hb, if_neg (fun hc => lt_irrefl 0 hc.1)]

/-- Stitching nonempty images with zero overlap: no warning, the composite
height is the sum of the two heights, the width the larger width. -/
lemma merge_zero_overlap (a b : Img) (h1 : 0 < a.height) (h2 : 0 < b.height) :
    (merge_images_vertically_core a b 0).1 = false ∧
    (merge_images_vertically_core a b 0).2.height = a.height + b.height ∧
    (merge_images_vertically_core a b 0).2.width = max a.width b.width := by
  rw [merge_core_zero]
  exact combineParts_pos a b (by omega) (by omega)

/-- Stitching with the overlap equal to the bottom height returns the top
image unmodified, unless both images are empty. -/
lemma merge_full_overlap (a b : Img) (h : a.height ≠ 0 ∨ b.height ≠ 0) :
    merge_images_vertically_core a b b.height = (false, a) := by
  by_cases hb : 0 < b.height
  · have hbp : (bottomPartOf b b.height).height = 0 := by
      unfold bottomPartOf
      rw [if_pos hb]
      show b.height - min b.height b.height = 0
      simp
    show (if 0 < b.height ∧ (bottomPartOf b b.height).height = 0 then (false, a)
        else combineParts a (bottomPartOf b b.height)) = (false, a)
    rw [if_pos ⟨hb, hbp⟩]
  · have hb0 : b.height = 0 := by omega
    have ha : a.height ≠ 0 := by tauto
    have hbp : bottomPartOf b b.height = b := by
      unfold bottomPartOf
      rw [if_neg hb]
    show (if 0 < b.height ∧ (bottomPartOf b b.height).height = 0 then (false, a)
        else combineParts a (bottomPartOf b b.height)) = (false, a)
    rw [hbp, if_neg (fun hc => hb hc.1)]
    unfold combineParts
    rw [if_neg (fun hc => ha hc.1), if_neg ha, if_pos hb0]

/-- The placeholder branch: with two empty images and zero overlap the
stitcher warns and returns the 100×100 white placeholder. -/
lemma merge_placeholder (a b : Img) (ha : a.height = 0) (hb : b.height = 0) :
    merge_images_vertically_core a b 0 = (true, whiteImg 100 100) := by
  rw [merge_core_zero]
  unfold combineParts
  rw [if_pos ⟨ha, hb⟩]

/-- A zero-height input makes the page fitter fail at the aspect-ratio
division (line 197). -/
lemma resize_err_h0 (image : Img) (tw th : ℕ) (hh : image.height = 0) :
    resize_image_to_spec image tw th = .error .divisionByZeroAspect := by
  unfold resize_image_to_spec
  rw [if_pos hh]

/-- A positive-height input never reaches the aspect-ratio division by
zero (the later failures — zero target dimensions, a zero fitted
dimension inside `resize` — are distinct errors). -/
lemma resize_ne_aspect (image : Img) (tw th : ℕ) (hh : image.height ≠ 0) :
    resize_image_to_spec image tw th ≠ .error .divisionByZeroAspect := by
  unfold resize_image_to_spec
  rw [if_neg hh]
  by_cases h0 : tw = 0 ∨ th = 0
  · rw [if_pos h0]
    simp
  · rw [if_neg h0]
    by_cases hd : (fitDims image tw th).1 = 0 ∨ (fitDims image tw th).2 = 0
    · rw [if_pos hd]
      simp
    · rw [if_neg hd]
      simp

/-- When nothing raises — positive height, positive targets and positive
fitted dimensions — the page fitter succeeds and its output has exactly
the target dimensions (the returned canvas is the target-sized white
canvas with the resampled image pasted on). -/
lemma resize_ok_dims (image : Img) (tw th : ℕ) (hh : image.height ≠ 0)
    (h0 : ¬ (tw = 0 ∨ th = 0))
    (hd : ¬ ((fitDims image tw th).1 = 0 ∨ (fitDims image tw th).2 = 0)) :
    (resize_image_to_spec image tw th).toOption.map
      (fun p => (p.1.width, p.1.height)) = some (tw, th) := by
  unfold resize_image_to_spec
  rw [if_neg hh, if_neg h0, if_neg hd]
  rfl

/-- Whenever line 209 is reached the filter passed to `resize` is
LANCZOS. -/
lemma filterChosen_ok (image : Img) (tw th : ℕ) (hh : image.height ≠ 0)
    (h0 : ¬ (tw = 0 ∨ th = 0)) :
    filterChosen image tw th = some ResampleFilter.lanczos := by
  unfold filterChosen
  rw [if_neg hh, if_neg h0]

/-- Fitted dimensions of a square 100×100 image into a 10×10 page. -/
lemma fitDims_down : fitDims (whiteImg 100 100) 10 10 = (10, 10) := by
  unfold fitDims
  rw [if_neg (show ¬ (((whiteImg 100 100).width : ℚ) / ((10 : ℕ) : ℚ) >
      ((whiteImg 100 100).height : ℚ) / ((10 : ℕ) : ℚ)) by norm_num [whiteImg])]
  show (Int.toNat ⌊((10 : ℕ) : ℚ) * (((100 : ℕ) : ℚ) / ((100 : ℕ) : ℚ))⌋,
    (10 : ℕ)) = (10, 10)
  norm_num
  try rfl

/-- Fitted dimensions of a square 100×100 image into a 100×100 page. -/
lemma fitDims_same : fitDims (whiteImg 100 100) 100 100 = (100, 100) := by
  unfold fitDims
  rw [if_neg (show ¬ (((whiteImg 100 100).width : ℚ) / ((100 : ℕ) : ℚ) >
      ((whiteImg 100 100).height : ℚ) / ((100 : ℕ) : ℚ)) by norm_num [whiteImg])]
  show (Int.toNat ⌊((100 : ℕ) : ℚ) * (((100 : ℕ) : ℚ) / ((100 : ℕ) : ℚ))⌋,
    (100 : ℕ)) = (100, 100)
  norm_num
  try rfl

/-- The scale factor of fitting 100×100 into 10×10 is 1/10. -/
lemma scaleFactor_down : scaleFactorOf (whiteImg 100 100) 10 10 < 1 / 2 := by
  unfold scaleFactorOf
  rw [fitDims_down]
  show min (((10 : ℕ) : ℚ) / ((whiteImg 100 100).width : ℚ))
    (((10 : ℕ) : ℚ) / ((whiteImg 100 100).height : ℚ)) < 1 / 2
  norm_num [whiteImg]

/-- The scale factor of fitting 100×100 into 100×100 is 1. -/
lemma scaleFactor_same : ¬ scaleFactorOf (whiteImg 100 100) 100 100 < 1 / 2 := by
  unfold scaleFactorOf
  rw [fitDims_same]
  show ¬ min (((100 : ℕ) : ℚ) / ((whiteImg 100 100).width : ℚ))
    (((100 : ℕ) : ℚ) / ((whiteImg 100 100).height : ℚ)) < 1 / 2
  norm_num [whiteImg]

/-- Fitted dimensions of a 3000×1 image into the 2550×3900 page preset:
width binds (`3000/2550 > 1/3900`) and
`new_height = int(2550 / 3000) = 0`. -/
lemma fitDims_wide : fitDims (whiteImg 3000 1) 2550 3900 = (2550, 0) := by
  unfold fitDims
  rw [if_pos (show ((whiteImg 3000 1).width : ℚ) / ((2550 : ℕ) : ℚ) >
      ((whiteImg 3000 1).height : ℚ) / ((3900 : ℕ) : ℚ) by norm_num [whiteImg])]
  show ((2550 : ℕ), Int.toNat ⌊((2550 : ℕ) : ℚ) /
    (((3000 : ℕ) : ℚ) / ((1 : ℕ) : ℚ))⌋) = (2550, 0)
  norm_num
  try rfl

/-- On a 3000×1 image fitted to 2550×3900 the fitted height truncates to
zero and the `resize` call raises — the fitter returns the PIL
`ValueError`, not a canvas. -/
lemma resize_wide_err :
    resize_image_to_spec (whiteImg 3000 1) 2550 3900 =
      .error .resizeZeroDimension := by
  unfold resize_image_to_spec
  rw [if_neg (by decide), if_neg (by decide), fitDims_wide]
  rw [if_pos (Or.inr rfl)]

/-- Fitted dimensions of a 1×1000 image into the 2550×3900 page preset:
height binds and `new_width = int(3900 / 1000) = 3`. -/
lemma fitDims_tall : fitDims (whiteImg 1 1000) 2550 3900 = (3, 3900) := by
  unfold fitDims
  rw [if_neg (show ¬ (((whiteImg 1 1000).width : ℚ) / ((2550 : ℕ) : ℚ) >
      ((whiteImg 1 1000).height : ℚ) / ((3900 : ℕ) : ℚ)) by norm_num [whiteImg])]
  show (Int.toNat ⌊((3900 : ℕ) : ℚ) * (((1 : ℕ) : ℚ) / ((1000 : ℕ) : ℚ))⌋,
    (3900 : ℕ)) = (3, 3900)
  norm_num
  try rfl

/-- Fitted dimensions of any 100-wide, 400-tall image into a 200×500 page:
height binds and `new_width = int(500 * 100/400) = 125`. -/
lemma fitDims_merged (img : Img) (hw : img.width = 100) (hh : img.height = 400) :
    fitDims img 200 500 = (125, 500) := by
  unfold fitDims
  rw [hw, hh]
  rw [if_neg (show ¬ (((100 : ℕ) : ℚ) / ((200 : ℕ) : ℚ) >
      ((400 : ℕ) : ℚ) / ((500 : ℕ) : ℚ)) by norm_num)]
  show (Int.toNat ⌊((500 : ℕ) : ℚ) * (((100 : ℕ) : ℚ) / ((400 : ℕ) : ℚ))⌋,
    (500 : ℕ)) = (125, 500)
  norm_num
  try rfl

/-! ## Definitions modelled from the spec, for comparison with the source -/

/-- Modelled from the spec: the `round` named by the acceptance policy and
the search bound (the source instead truncates with `int`).  Rounding is
half-up; no value this file evaluates it on sits exactly on a half in a way
that distinguishes half-up from half-to-even. -/
def ratRound (x : ℚ) : ℤ := ⌊x + 1 / 2⌋

/-- Modelled from the spec: `minSignificant = max(step, 5,
round(0.01 * min(top.height, bottom.height)))`, with `round` as the spec
says, where the source has `int` truncation. -/
def claimMinSignificant (step m : ℕ) : ℕ :=
  max step (max 5 (Int.toNat (ratRound ((1 / 100 : ℚ) * (m : ℚ)))))

/-- Modelled from the spec: `searchMax = clamp(round(maxPossible *
searchProportion), step, maxPossible)`, with `round` as the spec says,
where the source has `int` truncation. -/
def claimSearchMaxOf (m : ℕ) (sp : ℚ) (step : ℕ) : ℕ :=
  min (max step (Int.toNat (ratRound ((m : ℚ) * sp)))) m

/-- Modelled from the spec: the candidate heights `step, 2·step, …` up to
the rounded `searchMax`. -/
def claimCandidatesOf (a b : Img) (sp : ℚ) (step : ℕ) : List ℕ :=
  List.range' step (claimSearchMaxOf (min a.height b.height) sp step / step) step

/-- Modelled from the spec: the stitcher outcome type of §4.2/§7, where both
parts being height-zero is the error `EmptyComposite` rather than an image. -/
inductive SpecStitchOutcome where
  | image (img : Img)
  | emptyCompositeError

/-- The outcome the source's stitcher actually produces, expressed in the
spec's outcome type: always an image — the source returns the 100×100
placeholder (with a warning dialog) on the degenerate branch and has no
error return after decoding succeeds. -/
def stitchOutcome (a b : Img) (oh : ℕ) : SpecStitchOutcome :=
  SpecStitchOutcome.image (merge_images_vertically_core a b oh).2

/-- Modelled from the spec: the §4.3 filter-selection policy — a
high-quality area-aware filter `hq` when the scale factor is below 1/2, a
cheaper filter `cheap` otherwise. -/
def specFilterPolicy (hq cheap : ResampleFilter) (sf : ℚ) : ResampleFilter :=
  if sf < 1 / 2 then hq else cheap

/-- Search bound of two all-white 1×7 images: `int(7 * 0.95) = 6`. -/
lemma searchMax_w7 : searchMaxOf (min w7.height w7.height) (19 / 20) 1 = 6 := by
  show min (max 1 (Int.toNat ⌊((min (7 : ℕ) 7 : ℕ) : ℚ) * (19 / 20)⌋))
    (min (7 : ℕ) 7) = 6
  norm_num
  try rfl

/-- Rounded search bound of two all-white 1×7 images:
`round(7 * 0.95) = 7`. -/
lemma claimSearchMax_w7 : claimSearchMaxOf (min w7.height w7.height) (19 / 20) 1 = 7 := by
  show min (max 1 (Int.toNat ⌊((min (7 : ℕ) 7 : ℕ) : ℚ) * (19 / 20) + 1 / 2⌋))
    (min (7 : ℕ) 7) = 7
  norm_num
  try rfl

/-! ## Claim theorems -/

/-- Concrete empty image used for the C4 counterexample. -/
def emptyImg : Img := { width := 0, height := 0, pix := fun _ _ _ => 255 }

/-- Concrete empty image (width 7) used for the C7 counterexample. -/
def emptyImg7 : Img := { width := 7, height := 0, pix := fun _ _ _ => 255 }

/-- Concrete empty image (width 2) used for the C7 witness. -/
def emptyImg2 : Img := { width := 2, height := 0, pix := fun _ _ _ => 255 }

/-- Claim C1, counterexample: on the §8 scenario (100×200 images, black
50×50 square at the bottom of A and the top of B) the claim predicts
`detect` finds height 50, but the code returns 0 — every overlap height up
to 50 matches exactly (SAD 0), the strict-minimum scan keeps the first such
height 1, and 1 is below `min_significant = 5`, so the acceptance gate
rejects. -/
theorem C1_counterexample :
    find_best_overlap_height imgA imgB (19 / 20) 1 25 = 0 ∧
    find_best_overlap_height imgA imgB (19 / 20) 1 25 ≠ 50 := by
  refine ⟨detect_AB, ?_⟩
  rw [detect_AB]
  decide

/-- Claim C1, amended: on the §8 scenario `detect` returns height 0 (the
minimal SAD 0 is attained first at candidate height 1, below
`min_significant` 5), stitching therefore appends the full bottom image and
yields a 100×400 composite, and fitting that composite to a 200×500 target
yields a 200×500 canvas. -/
theorem C1_amended_theorem :
    find_best_overlap_height imgA imgB (19 / 20) 1 25 = 0 ∧
    (merge_images_vertically imgA imgB).1 = false ∧
    (merge_images_vertically imgA imgB).2.width = 100 ∧
    (merge_images_vertically imgA imgB).2.height = 400 ∧
    (resize_image_to_spec (merge_images_vertically imgA imgB).2 200 500).toOption.map
      (fun p => (p.1.width, p.1.height)) = some (200, 500) := by
  have hm : merge_images_vertically imgA imgB =
      merge_images_vertically_core imgA imgB 0 := by
    unfold merge_images_vertically
    rw [detect_AB]
  obtain ⟨hflag, hheight, hwidth⟩ :=
    merge_zero_overlap imgA imgB (by decide) (by decide)
  refine ⟨detect_AB, ?_, ?_, ?_, ?_⟩
  · rw [hm]
    exact hflag
  · rw [hm, hwidth]
    decide
  · rw [hm, hheight]
    decide
  · rw [hm]
    have hw100 : (merge_images_vertically_core imgA imgB 0).2.width = 100 := by
      rw [hwidth]
      decide
    have hh400 : (merge_images_vertically_core imgA imgB 0).2.height = 400 := by
      rw [hheight]
      decide
    have hfd := fitDims_merged _ hw100 hh400
    apply resize_ok_dims
    · rw [hh400]
      decide
    · decide
    · rw [hfd]
      decide

/-- Claim C2, counterexample: on two all-white 1×550 images with `step = 5`
and threshold 25 the best candidate found is 5 with minimal SAD 0 and the
claim's `minSignificant = max(5, 5, round(5.5)) = 6` demands rejection, yet
the code accepts and returns 5 — the source truncates (`int(5.5) = 5`)
instead of rounding. -/
theorem C2_counterexample :
    (detectScan w550 w550 (19 / 20) 5).1 <
      claimMinSignificant 5 (min w550.height w550.height) ∧
    sadTooHigh (detectScan w550 w550 (19 / 20) 5).2 25 = false ∧
    find_best_overlap_height w550 w550 (19 / 20) 5 25 = 5 := by
  have hcm : claimMinSignificant 5 (min w550.height w550.height) = 6 := by
    show max 5 (max 5 (Int.toNat ⌊(1 / 100 : ℚ) * ((min (550 : ℕ) 550 : ℕ) : ℚ) + 1 / 2⌋)) = 6
    norm_num
    try rfl
  refine ⟨?_, ?_, detect_w550⟩
  · rw [detectScan_w550, hcm]
    decide
  · rw [detectScan_w550]
    show decide ((25 : ℚ) < 0) = false
    rw [decide_eq_false_iff_not]
    norm_num

/-- Claim C2, amended: for all images, `detect` returns 0 exactly when the
best candidate found is below `minSignificant = max(step, 5,
int(0.01 * min(top.height, bottom.height)))` — truncation, not rounding —
or the minimal normalised SAD over the evaluated candidates exceeds
`sadThreshold` (an empty scan counting as exceeding); otherwise it returns
the first candidate height attaining the minimal normalised SAD. -/
theorem C2_amended_theorem (a b : Img) (sp : ℚ) (step : ℕ) (thr : ℚ) :
    find_best_overlap_height a b sp step thr =
      if (detectScan a b sp step).1 <
            min_significant_overlap_px step (min a.height b.height)
          ∨ sadTooHigh (detectScan a b sp step).2 thr = true
      then 0 else (detectScan a b sp step).1 :=
  detect_gate_eq a b sp step thr

/-- Claim C3, confirmed: stitching with overlap height 0 keeps the bottom
image whole and returns a composite of height exactly
`A.height + B.height` (no warning). -/
theorem C3_theorem (a b : Img) (h1 : 0 < a.height) (h2 : 0 < b.height) :
    bottomPartOf b 0 = b ∧
    (merge_images_vertically_core a b 0).1 = false ∧
    (merge_images_vertically_core a b 0).2.height = a.height + b.height := by
  refine ⟨?_, (merge_zero_overlap a b h1 h2).1, (merge_zero_overlap a b h1 h2).2.1⟩
  unfold bottomPartOf
  rw [if_neg (lt_irrefl 0)]

/-- Witness for C3 at concrete 2×3 and 4×5 white images. -/
theorem C3_witness :
    bottomPartOf (whiteImg 4 5) 0 = whiteImg 4 5 ∧
    (merge_images_vertically_core (whiteImg 2 3) (whiteImg 4 5) 0).1 = false ∧
    (merge_images_vertically_core (whiteImg 2 3) (whiteImg 4 5) 0).2.height = 8 :=
  C3_theorem (whiteImg 2 3) (whiteImg 4 5) (by decide) (by decide)

/-- Claim C4, counterexample: with two height-0 images, stitching with
`overlap.height = B.height = 0` does not return `A` — the code returns the
100×100 white placeholder (with a warning), whose height 100 differs from
`A.height = 0`. -/
theorem C4_counterexample :
    ¬ ((merge_images_vertically_core emptyImg emptyImg emptyImg.height).1 = false ∧
      (merge_images_vertically_core emptyImg emptyImg emptyImg.height).2 = emptyImg) := by
  rintro ⟨hflag, himg⟩
  have h100 : (merge_images_vertically_core emptyImg emptyImg emptyImg.height).2.height = 100 := by
    rw [show emptyImg.height = 0 from rfl, merge_placeholder emptyImg emptyImg rfl rfl]
    rfl
  rw [himg] at h100
  exact absurd h100 (by decide)

/-- Claim C4, amended: for every pair of images not both of height zero,
stitching with `overlap.height = B.height` returns exactly the top image
`A`, unmodified and without warning. -/
theorem C4_amended_theorem (a b : Img) (h : a.height ≠ 0 ∨ b.height ≠ 0) :
    merge_images_vertically_core a b b.height = (false, a) :=
  merge_full_overlap a b h

/-- Witness for the amended C4 at concrete white images. -/
theorem C4_amended_witness :
    merge_images_vertically_core (whiteImg 3 4) (whiteImg 3 6) (whiteImg 3 6).height =
      (false, whiteImg 3 4) :=
  C4_amended_theorem (whiteImg 3 4) (whiteImg 3 6) (Or.inl (by decide))

/-- Claim C5, counterexample: a 3000×1 image — the extreme end of the
claim's own 1×1000..3000×1 range — fitted to the repository's 2550×3900
page preset has `new_height = int(2550 / 3000) = 0`, so the `resize` call
raises PIL's `ValueError` and `fit` returns no target-sized canvas at
all. -/
theorem C5_counterexample :
    0 < (whiteImg 3000 1).width ∧ 0 < (whiteImg 3000 1).height ∧
    resize_image_to_spec (whiteImg 3000 1) 2550 3900 =
      .error .resizeZeroDimension ∧
    (resize_image_to_spec (whiteImg 3000 1) 2550 3900).toOption.map
      (fun p => (p.1.width, p.1.height)) ≠ some (2550, 3900) := by
  refine ⟨by decide, by decide, resize_wide_err, ?_⟩
  rw [resize_wide_err]
  simp [Except.toOption]

/-- Claim C5, amended: for every image of positive width and height and
every positive target page size such that neither fitted dimension
truncates to zero, `fit` returns a canvas whose dimensions exactly equal
the target; when a fitted dimension does truncate to zero (extreme aspect
ratios such as 3000×1 into 2550×3900) the `resize` call raises instead of
returning a canvas. -/
theorem C5_amended_theorem (image : Img) (tw th : ℕ) (_hw : 0 < image.width)
    (hh : 0 < image.height) (htw : 0 < tw) (hth : 0 < th)
    (hd1 : 0 < (fitDims image tw th).1) (hd2 : 0 < (fitDims image tw th).2) :
    (resize_image_to_spec image tw th).toOption.map
      (fun p => (p.1.width, p.1.height)) = some (tw, th) :=
  resize_ok_dims image tw th (by omega) (by rintro (h | h) <;> omega)
    (by rintro (h | h) <;> omega)

/-- Witness for the amended C5 at an extreme 1×1000 input fitted to an
8.5×13in page (fitted dimensions 3×3900, both positive). -/
theorem C5_amended_witness :
    (resize_image_to_spec (whiteImg 1 1000) 2550 3900).toOption.map
      (fun p => (p.1.width, p.1.height)) = some (2550, 3900) :=
  C5_amended_theorem (whiteImg 1 1000) 2550 3900 (by decide) (by decide)
    (by decide) (by decide) (by rw [fitDims_tall]; decide)
    (by rw [fitDims_tall]; decide)

/-- Claim C6, counterexample: on two 1×7 images with `searchProportion =
0.95` and `step = 1` the code examines candidates 1–6
(`int(6.65) = 6`), while the claim's rounded bound `round(6.65) = 7`
predicts candidates 1–7. -/
theorem C6_counterexample :
    candidatesOf w7 w7 (19 / 20) 1 = [1, 2, 3, 4, 5, 6] ∧
    claimCandidatesOf w7 w7 (19 / 20) 1 = [1, 2, 3, 4, 5, 6, 7] ∧
    candidatesOf w7 w7 (19 / 20) 1 ≠ claimCandidatesOf w7 w7 (19 / 20) 1 := by
  have h1 : candidatesOf w7 w7 (19 / 20) 1 = [1, 2, 3, 4, 5, 6] := by
    unfold candidatesOf
    rw [searchMax_w7]
    decide
  have h2 : claimCandidatesOf w7 w7 (19 / 20) 1 = [1, 2, 3, 4, 5, 6, 7] := by
    unfold claimCandidatesOf
    rw [claimSearchMax_w7]
    decide
  refine ⟨h1, h2, ?_⟩
  rw [h1, h2]
  decide

/-- Claim C6, amended: `detect` returns 0 when the common width is 0 or the
shorter image is below one step; the candidate overlap heights examined are
exactly the positive multiples of `step` up to `searchMax =
clamp(int(min(top.height, bottom.height) * searchProportion), step,
min(top.height, bottom.height))` — truncation, not rounding. -/
theorem C6_amended_theorem :
    (∀ (a b : Img) (sp : ℚ) (step : ℕ) (thr : ℚ), min a.width b.width = 0 →
      find_best_overlap_height a b sp step thr = 0) ∧
    (∀ (a b : Img) (sp : ℚ) (step : ℕ) (thr : ℚ), min a.height b.height < step →
      find_best_overlap_height a b sp step thr = 0) ∧
    (∀ (a b : Img) (sp : ℚ) (step oh : ℕ), 1 ≤ step →
      (oh ∈ candidatesOf a b sp step ↔
        step ∣ oh ∧ step ≤ oh ∧
          oh ≤ searchMaxOf (min a.height b.height) sp step)) := by
  refine ⟨?_, ?_, ?_⟩
  · intro a b sp step thr hw
    unfold find_best_overlap_height
    rw [if_pos hw]
  · intro a b sp step thr hh
    unfold find_best_overlap_height
    by_cases hw : min a.width b.width = 0
    · rw [if_pos hw]
    · rw [if_neg hw, if_pos hh]
  · intro a b sp step oh hs
    exact mem_candidatesOf hs

/-- Witness for the amended C6: a zero-width pair, a too-short pair, and a
candidate membership on the 1×7 images. -/
theorem C6_amended_witness :
    find_best_overlap_height (whiteImg 0 9) (whiteImg 5 9) (19 / 20) 1 25 = 0 ∧
    find_best_overlap_height (whiteImg 5 3) (whiteImg 5 3) (19 / 20) 7 25 = 0 ∧
    6 ∈ candidatesOf w7 w7 (19 / 20) 1 :=
  ⟨C6_amended_theorem.1 (whiteImg 0 9) (whiteImg 5 9) (19 / 20) 1 25 (by decide),
   C6_amended_theorem.2.1 (whiteImg 5 3) (whiteImg 5 3) (19 / 20) 7 25 (by decide),
   (C6_amended_theorem.2.2 w7 w7 (19 / 20) 1 6 (by decide)).mpr
     ⟨by decide, by decide, by rw [searchMax_w7]⟩⟩

/-- Claim C7, counterexample: with both parts of height zero the stitcher
does not return an `EmptyComposite` error — it pops a warning and returns
the 100×100 white placeholder image, a success value. -/
theorem C7_counterexample :
    stitchOutcome emptyImg7 emptyImg7 0 = SpecStitchOutcome.image (whiteImg 100 100) ∧
    stitchOutcome emptyImg7 emptyImg7 0 ≠ SpecStitchOutcome.emptyCompositeError ∧
    (merge_images_vertically_core emptyImg7 emptyImg7 0).1 = true := by
  have hm := merge_placeholder emptyImg7 emptyImg7 rfl rfl
  refine ⟨?_, ?_, ?_⟩
  · unfold stitchOutcome
    rw [hm]
  · unfold stitchOutcome
    rw [hm]
    simp
  · rw [hm]

/-- Claim C7, amended: when the top image, the bottom image and the overlap
are all degenerate (both heights zero, overlap zero — the only way the
combine step sees two empty parts), the stitcher shows a warning and
returns the 100×100 white placeholder image instead of an error. -/
theorem C7_amended_theorem (a b : Img) (ha : a.height = 0) (hb : b.height = 0) :
    merge_images_vertically_core a b 0 = (true, whiteImg 100 100) :=
  merge_placeholder a b ha hb

/-- Witness for the amended C7 at a concrete empty pair. -/
theorem C7_amended_witness :
    merge_images_vertically_core emptyImg2 emptyImg2 0 = (true, whiteImg 100 100) :=
  C7_amended_theorem emptyImg2 emptyImg2 rfl rfl

/-- Claim C8, counterexample: two all-white 1×20 images are a split of one
white source at row `k = 4` (B's top 4 rows equal A's bottom 4 rows), with
`k` below `minSignificant = 5` as the claim asks; yet `detect` returns 0,
which is not within `±step = ±1` of 4. -/
theorem C8_counterexample :
    (∀ i c ch, i < 4 → c < min w20.width w20.width → ch < 3 →
      w20.pix (w20.height - 4 + i) c ch = w20.pix i c ch) ∧
    4 < min_significant_overlap_px 1 (min w20.height w20.height) ∧
    find_best_overlap_height w20 w20 (19 / 20) 1 25 = 0 ∧
    ¬ (3 ≤ find_best_overlap_height w20 w20 (19 / 20) 1 25) := by
  refine ⟨fun i c ch _ _ _ => rfl, ?_, detect_w20, ?_⟩
  · rw [minsig_w20]
    decide
  · rw [detect_w20]
    decide

/-- Claim C8, amended: for every pair obtained by splitting one source at a
row `k` that is among the examined candidate heights (a positive multiple
of `step` up to `searchMax`), the minimal normalised SAD — the detection
quality — is exactly 0, and `detect` returns either 0 (rejected by the
acceptance gate) or a candidate height whose normalised SAD is 0. -/
theorem C8_amended_theorem (a b : Img) (sp thr : ℚ) (step k : ℕ)
    (hs : 1 ≤ step) (hw : 0 < min a.width b.width)
    (hk : k ∈ candidatesOf a b sp step)
    (hsplit : ∀ i c ch, i < k → c < min a.width b.width → ch < 3 →
      a.pix (a.height - k + i) c ch = b.pix i c ch) :
    (detectScan a b sp step).2 = some 0 ∧
      (find_best_overlap_height a b sp step thr = 0 ∨
        nsad a b (min a.width b.width)
          (find_best_overlap_height a b sp step thr) = some 0) :=
  detect_split_quality hs hw hk hsplit

/-- Witness for the amended C8: the all-white 1×20 pair split at row 5. -/
theorem C8_amended_witness :
    (detectScan w20 w20 (19 / 20) 1).2 = some 0 ∧
      (find_best_overlap_height w20 w20 (19 / 20) 1 25 = 0 ∨
        nsad w20 w20 (min w20.width w20.width)
          (find_best_overlap_height w20 w20 (19 / 20) 1 25) = some 0) :=
  C8_amended_theorem w20 w20 (19 / 20) 25 1 5 (by decide) (by decide)
    (by rw [candidatesOf_w20]; decide) (fun i c ch _ _ _ => rfl)

/-- Claim C9, counterexample: no pair of distinct filters can describe the
fitter's resampling, because the source passes LANCZOS for every input —
both at scale factor 1/10 (a significant downscale, where the claim
predicts an area-aware filter) and at scale factor 1 (where the claim
predicts a cheaper one). -/
theorem C9_counterexample :
    ¬ ∃ hq cheap : ResampleFilter, hq ≠ cheap ∧
      ∀ (image : Img) (tw th : ℕ), 0 < image.height → 0 < tw → 0 < th →
        filterChosen image tw th =
          some (specFilterPolicy hq cheap (scaleFactorOf image tw th)) := by
  rintro ⟨hq, cheap, hne, hall⟩
  have h1 := hall (whiteImg 100 100) 10 10 (by decide) (by decide) (by decide)
  have h2 := hall (whiteImg 100 100) 100 100 (by decide) (by decide) (by decide)
  rw [filterChosen_ok (whiteImg 100 100) 10 10 (by decide) (by decide)] at h1
  rw [filterChosen_ok (whiteImg 100 100) 100 100 (by decide) (by decide)] at h2
  unfold specFilterPolicy at h1 h2
  rw [if_pos scaleFactor_down] at h1
  rw [if_neg scaleFactor_same] at h2
  have e1 : ResampleFilter.lanczos = hq := by injection h1
  have e2 : ResampleFilter.lanczos = cheap := by injection h2
  exact hne (by rw [← e1, ← e2])

/-- Claim C9, amended: the resampling filter passed to `resize` is LANCZOS
for every nondegenerate input, independent of the scale factor. -/
theorem C9_amended_theorem (image : Img) (tw th : ℕ) (hh : 0 < image.height)
    (htw : 0 < tw) (hth : 0 < th) :
    filterChosen image tw th = some ResampleFilter.lanczos :=
  filterChosen_ok image tw th (by omega) (by rintro (h | h) <;> omega)

/-- Witness for the amended C9 at a concrete strong downscale. -/
theorem C9_amended_witness :
    filterChosen (whiteImg 100 100) 10 10 = some ResampleFilter.lanczos :=
  C9_amended_theorem (whiteImg 100 100) 10 10 (by decide) (by decide) (by decide)

/-- Claim C10, confirmed: `fit` fails with the aspect-ratio
division-by-zero error exactly on zero-height inputs; under the
precondition of positive height that error is unreachable. -/
theorem C10_theorem :
    (∀ (image : Img) (tw th : ℕ), image.height = 0 →
      resize_image_to_spec image tw th = .error .divisionByZeroAspect) ∧
    (∀ (image : Img) (tw th : ℕ), 0 < image.height →
      resize_image_to_spec image tw th ≠ .error .divisionByZeroAspect) := by
  constructor
  · intro image tw th hh
    exact resize_err_h0 image tw th hh
  · intro image tw th hh
    exact resize_ne_aspect image tw th (by omega)

/-- Witness for C10: a 5×0 image fails with the aspect division error, a
5×5 image does not. -/
theorem C10_witness :
    resize_image_to_spec (whiteImg 5 0) 10 10 = .error .divisionByZeroAspect ∧
    resize_image_to_spec (whiteImg 5 5) 10 10 ≠ .error .divisionByZeroAspect :=
  ⟨C10_theorem.1 (whiteImg 5 0) 10 10 rfl,
   C10_theorem.2 (whiteImg 5 5) 10 10 (by decide)⟩
